import Mathlib

/-!
Verification of the news-aggregator agent repository.

Python strings are modelled as `List Char` (a Python `str` is a sequence of
code points; slicing `s[:n]` is `List.take n`, the substring test `in` is
`pyContains`). External network/audio services (Tavily, NewsAPI, the
speech-recognition engines, the LLM graph) are modelled as oracle fields of
explicit environment structures: the repository's own control flow over those
oracles is translated faithfully from the source.
-/

/-- Code points of a Lean string literal; used to write Python string
literals from the source as `List Char` values. -/
def str (s : String) : List Char := s.data

/-- Decimal rendering of a number, as Python `str(n)` / f-string
interpolation of an int produces. -/
def natChars (n : Nat) : List Char := (Nat.repr n).data

/- ## src/tools/news_aggregation_tools.py -/

/-- One news article as returned by a search backend.  The Python code reads
articles as dicts via `article.get(key, default)`; the defaults ("No title",
"Unknown", ...) are absorbed into the oracle data, so every field is total
here. -/
structure Article where
  title : List Char
  description : List Char
  content : List Char
  url : List Char
  sourceName : List Char
  publishedAt : List Char
deriving DecidableEq, Repr

/-- Environment for `NewsAggregator`: which API keys are configured and what
the external search services would answer.  `tavilyKey` models
`TAVILY_API_KEY` being set, `newsKey` models `NEWS_API_KEY` being set (and
hence `self.newsapi_client` being non-None).  `formatDate` models the
`datetime.fromisoformat`/`strftime` rendering (with its `except` fallback to
the raw string), and `now` models `datetime.now().isoformat()`. -/
structure SearchEnv where
  tavilyKey : Bool
  newsKey : Bool
  tavilyResults : List Char → Nat → List Article
  newsApiResults : List Char → Nat → List Article
  techResults : List Char → List Article
  businessResults : List Char → List Article
  linkedinResults : List Char → List Article
  mediumResults : List Char → List Article
  formatDate : List Char → List Char
  now : List Char

namespace NewsAggregator

/-- `NewsAggregator.search_news_tavily`: returns `[]` when no Tavily key is
configured, otherwise the external results (exceptions from the external
call are caught and also yield `[]`, absorbed into the oracle). -/
def search_news_tavily (env : SearchEnv) (query : List Char) (max_results : Nat) :
    List Article :=
  if env.tavilyKey then env.tavilyResults query max_results else []

/-- `NewsAggregator.search_news_api`: returns `[]` when `newsapi_client` is
None (no `NEWS_API_KEY`), otherwise the external NewsAPI articles. -/
def search_news_api (env : SearchEnv) (query : List Char) (max_results : Nat) :
    List Article :=
  if env.newsKey then env.newsApiResults query max_results else []

/-- `NewsAggregator.search_tech_news`: domain-filtered NewsAPI search;
`[]` when `newsapi_client` is None.  The domain-list computation only feeds
the external request and is absorbed into the oracle. -/
def search_tech_news (env : SearchEnv) (query : List Char) : List Article :=
  if env.newsKey then env.techResults query else []

/-- `NewsAggregator.search_business_news`: domain-filtered NewsAPI search;
`[]` when `newsapi_client` is None. -/
def search_business_news (env : SearchEnv) (query : List Char) : List Article :=
  if env.newsKey then env.businessResults query else []

/-- `NewsAggregator.search_linkedin_news`: Tavily `site:linkedin.com`
search; `[]` when no Tavily key. -/
def search_linkedin_news (env : SearchEnv) (query : List Char) : List Article :=
  if env.tavilyKey then env.linkedinResults query else []

/-- `NewsAggregator.search_medium_articles`: Tavily `site:medium.com`
search; `[]` when no Tavily key. -/
def search_medium_articles (env : SearchEnv) (query : List Char) : List Article :=
  if env.tavilyKey then env.mediumResults query else []

/-- The `sources["general"]` sub-dict built by `aggregate_news`. -/
structure GeneralSources where
  newsapi : List Article
  tavily : List Article
deriving DecidableEq, Repr

/-- The `sources["technology"]` sub-dict built by `aggregate_news`. -/
structure TechSources where
  tech_sources : List Article
  linkedin : List Article
  medium : List Article
deriving DecidableEq, Repr

/-- The `sources["business"]` sub-dict built by `aggregate_news`. -/
structure BusinessSources where
  financial_sources : List Article
deriving DecidableEq, Repr

/-- The dict returned by `aggregate_news`.  A `none` category means the key
is absent from `sources` (its category was not requested); note that a
present-but-empty category is still `some` — exactly the Python dict
truthiness the formatting code tests with `.get(...)`. -/
structure AggregatedResults where
  query : List Char
  timestamp : List Char
  general : Option GeneralSources
  technology : Option TechSources
  business : Option BusinessSources
  total_articles : Nat
deriving Repr

/-- `NewsAggregator.aggregate_news` — the sequential fan-out: NewsAPI first
for general news with Tavily only as fallback when it returned no articles;
NewsAPI tech domains with LinkedIn/Medium only when fewer than 5 tech
articles came back; business from NewsAPI only.  `total_articles` is
accumulated per stored list, exactly as in the source. -/
def aggregate_news (env : SearchEnv) (query : List Char) (categories : List String) :
    AggregatedResults :=
  let general :=
    if categories.contains "general" then
      let newsapi_results := search_news_api env query 10
      let tavily_results :=
        if newsapi_results.isEmpty then search_news_tavily env query 5 else []
      some { newsapi := newsapi_results, tavily := tavily_results }
    else none
  let technology :=
    if categories.contains "tech" then
      let tech_results := search_tech_news env query
      let linkedin_results :=
        if tech_results.length < 5 then search_linkedin_news env query else []
      let medium_results :=
        if tech_results.length < 5 then search_medium_articles env query else []
      some { tech_sources := tech_results, linkedin := linkedin_results,
             medium := medium_results }
    else none
  let business :=
    if categories.contains "business" then
      some { financial_sources := search_business_news env query }
    else none
  { query := query
    timestamp := env.now
    general := general
    technology := technology
    business := business
    total_articles :=
      (match general with
       | some g => g.newsapi.length + g.tavily.length
       | none => 0) +
      (match technology with
       | some t => t.tech_sources.length + t.linkedin.length + t.medium.length
       | none => 0) +
      (match business with
       | some b => b.financial_sources.length
       | none => 0) }

end NewsAggregator

/-- The six search backends `aggregate_news` can call, in source order. -/
inductive Backend where
  | newsapiGeneral
  | tavilyGeneral
  | newsapiTech
  | tavilyLinkedin
  | tavilyMedium
  | newsapiBusiness
deriving DecidableEq, Repr, BEq

/-- The sequence of backend-method invocations `aggregate_news` performs for
a given environment, query and category list — the instrumented call trace
of the same conditionals as `NewsAggregator.aggregate_news`. -/
def aggregate_calls (env : SearchEnv) (query : List Char) (categories : List String) :
    List Backend :=
  (if categories.contains "general" then
    [Backend.newsapiGeneral] ++
      (if (NewsAggregator.search_news_api env query 10).isEmpty then
        [Backend.tavilyGeneral] else [])
   else []) ++
  (if categories.contains "tech" then
    [Backend.newsapiTech] ++
      (if (NewsAggregator.search_tech_news env query).length < 5 then
        [Backend.tavilyLinkedin] else []) ++
      (if (NewsAggregator.search_tech_news env query).length < 5 then
        [Backend.tavilyMedium] else [])
   else []) ++
  (if categories.contains "business" then [Backend.newsapiBusiness] else [])

/-- The stored `sources["general"]["newsapi"]` list ( `[]` when the category
is absent). -/
def genNewsapi (r : NewsAggregator.AggregatedResults) : List Article :=
  match r.general with
  | some g => g.newsapi
  | none => []

/-- The stored `sources["general"]["tavily"]` list. -/
def genTavily (r : NewsAggregator.AggregatedResults) : List Article :=
  match r.general with
  | some g => g.tavily
  | none => []

/-- The stored `sources["technology"]["tech_sources"]` list. -/
def techList (r : NewsAggregator.AggregatedResults) : List Article :=
  match r.technology with
  | some t => t.tech_sources
  | none => []

/-- The stored `sources["technology"]["linkedin"]` list. -/
def linkedinList (r : NewsAggregator.AggregatedResults) : List Article :=
  match r.technology with
  | some t => t.linkedin
  | none => []

/-- The stored `sources["technology"]["medium"]` list. -/
def mediumList (r : NewsAggregator.AggregatedResults) : List Article :=
  match r.technology with
  | some t => t.medium
  | none => []

/-- The stored `sources["business"]["financial_sources"]` list. -/
def finList (r : NewsAggregator.AggregatedResults) : List Article :=
  match r.business with
  | some b => b.financial_sources
  | none => []

/-- Python's substring test `sub in s` over code-point lists. -/
def pyContains (sub : List Char) : List Char → Bool
  | [] => sub.isEmpty
  | c :: rest => sub.isPrefixOf (c :: rest) || pyContains sub rest

/-- A tool result that the code itself treats as an error: every error
return in the tools is a string starting with "Error". -/
def isErrorString (s : List Char) : Bool := (str "Error").isPrefixOf s

/- ### Markdown rendering done by the news tools -/

/-- `if url and url.startswith('http')` → `clean_url = url`, else `""`. -/
def cleanUrl (url : List Char) : List Char :=
  if (str "http").isPrefixOf url then url else []

/-- One article of a "News API Results" / "Tech Sources" / "Financial
Sources" block (the three loops share this exact layout): numbered title,
full description, source name, optional published line, optional link. -/
def renderNewsapiArticle (env : SearchEnv) (i : Nat) (a : Article) : List Char :=
  str "### " ++ natChars i ++ str ". " ++ a.title ++ str "\n\n" ++
  a.description ++ str "\n\n" ++
  str "**Source:** " ++ a.sourceName ++ str "\n" ++
  (if a.publishedAt.isEmpty then []
   else str "**Published:** " ++ env.formatDate a.publishedAt ++ str "\n") ++
  (if (cleanUrl a.url).isEmpty then []
   else str "**Link:** [" ++ cleanUrl a.url ++ str "](" ++ cleanUrl a.url ++
        str ")\n\n") ++
  str "---\n\n"

/-- One article of the general tool's "Web Search Results" block: content is
cut to 200 characters, the url is shown as a "**Source:**" link. -/
def renderTavilyGeneral (i : Nat) (a : Article) : List Char :=
  str "### " ++ natChars i ++ str ". " ++ a.title ++ str "\n\n" ++
  a.content.take 200 ++ str "...\n\n" ++
  (if a.url.isEmpty then []
   else str "**Source:** [" ++ a.url ++ str "](" ++ a.url ++ str ")\n\n") ++
  str "---\n\n"

/-- One article of the LinkedIn/Medium blocks (identical layout in both
loops): content cut to 200 characters, url shown as a "**Link:**" link. -/
def renderContentLink (i : Nat) (a : Article) : List Char :=
  str "### " ++ natChars i ++ str ". " ++ a.title ++ str "\n\n" ++
  a.content.take 200 ++ str "...\n\n" ++
  (if a.url.isEmpty then []
   else str "**Link:** [" ++ a.url ++ str "](" ++ a.url ++ str ")\n\n") ++
  str "---\n\n"

/-- The rendered entries of the general tool's Tavily block:
`enumerate(tavily_news[:5], 1)`. -/
def tavilyWebParts (arts : List Article) : List (List Char) :=
  (arts.take 5).enum.map fun p => renderTavilyGeneral (p.1 + 1) p.2

/-- The Tavily block of `search_general_news`, header included, empty when
the list is empty. -/
def tavilyWebSection (arts : List Article) : List Char :=
  if arts.isEmpty then []
  else str "## 🔍 Web Search Results\n\n" ++ (tavilyWebParts arts).flatten

/-- The rendered entries of the general tool's NewsAPI block:
`enumerate(newsapi_news[:5], 1)`. -/
def newsapiGeneralParts (env : SearchEnv) (arts : List Article) : List (List Char) :=
  (arts.take 5).enum.map fun p => renderNewsapiArticle env (p.1 + 1) p.2

/-- The NewsAPI block of `search_general_news`. -/
def newsapiGeneralSection (env : SearchEnv) (arts : List Article) : List Char :=
  if arts.isEmpty then []
  else str "## 📰 News API Results\n\n" ++ (newsapiGeneralParts env arts).flatten

/-- The `search_general_news` tool: aggregates the "general" category only
and renders the two blocks as Markdown.  The outer `except` branch
("Error searching for general news: ...") is unreachable in the model since
every modelled operation is total. -/
def search_general_news (env : SearchEnv) (query : List Char) : List Char :=
  let results := NewsAggregator.aggregate_news env query ["general"]
  match results.general with
  | none => str "No general news found for \x27" ++ query ++ str "\x27"
  | some g =>
      str "# 📰 General News about \x27" ++ query ++ str "\x27\n\n" ++
      tavilyWebSection g.tavily ++
      newsapiGeneralSection env g.newsapi

/-- The rendered entries of the technology tool's "Tech Sources" block:
`enumerate(tech_articles[:5], 1)`, same article layout as the NewsAPI
block. -/
def techSourcesParts (env : SearchEnv) (arts : List Article) : List (List Char) :=
  (arts.take 5).enum.map fun p => renderNewsapiArticle env (p.1 + 1) p.2

/-- The "Tech Sources" block of `search_technology_news`. -/
def techSourcesSection (env : SearchEnv) (arts : List Article) : List Char :=
  if arts.isEmpty then []
  else str "## 🔧 Tech Sources\n\n" ++ (techSourcesParts env arts).flatten

/-- The rendered entries of the LinkedIn block:
`enumerate(linkedin_articles[:3], 1)`. -/
def linkedinParts (arts : List Article) : List (List Char) :=
  (arts.take 3).enum.map fun p => renderContentLink (p.1 + 1) p.2

/-- The "LinkedIn Insights" block of `search_technology_news`. -/
def linkedinSection (arts : List Article) : List Char :=
  if arts.isEmpty then []
  else str "## 💼 LinkedIn Insights\n\n" ++ (linkedinParts arts).flatten

/-- The rendered entries of the Medium block:
`enumerate(medium_articles[:3], 1)`. -/
def mediumParts (arts : List Article) : List (List Char) :=
  (arts.take 3).enum.map fun p => renderContentLink (p.1 + 1) p.2

/-- The "Medium Articles" block of `search_technology_news`. -/
def mediumSection (arts : List Article) : List Char :=
  if arts.isEmpty then []
  else str "## 📝 Medium Articles\n\n" ++ (mediumParts arts).flatten

/-- The `search_technology_news` tool. -/
def search_technology_news (env : SearchEnv) (query : List Char) : List Char :=
  let results := NewsAggregator.aggregate_news env query ["tech"]
  match results.technology with
  | none => str "No technology news found for \x27" ++ query ++ str "\x27"
  | some t =>
      str "# 💻 Technology News about \x27" ++ query ++ str "\x27\n\n" ++
      techSourcesSection env t.tech_sources ++
      linkedinSection t.linkedin ++
      mediumSection t.medium

/-- The rendered entries of the business tool's "Financial Sources" block:
`enumerate(financial_articles[:5], 1)`. -/
def financialParts (env : SearchEnv) (arts : List Article) : List (List Char) :=
  (arts.take 5).enum.map fun p => renderNewsapiArticle env (p.1 + 1) p.2

/-- The "Financial Sources" block of the business tool. -/
def financialSection (env : SearchEnv) (arts : List Article) : List Char :=
  if arts.isEmpty then []
  else str "## 📈 Financial Sources\n\n" ++ (financialParts env arts).flatten

/-- The `search_business_news` tool (module-level `@tool`, distinct from the
`NewsAggregator.search_business_news` method). -/
def search_business_news_tool (env : SearchEnv) (query : List Char) : List Char :=
  let results := NewsAggregator.aggregate_news env query ["business"]
  match results.business with
  | none => str "No business news found for \x27" ++ query ++ str "\x27"
  | some b =>
      str "# 💼 Business News about \x27" ++ query ++ str "\x27\n\n" ++
      financialSection env b.financial_sources

/-- One entry of the comprehensive tool's Tavily block: bold numbered title
and content cut to 150 characters. -/
def renderCompTavily (i : Nat) (a : Article) : List Char :=
  str "**" ++ natChars i ++ str ". " ++ a.title ++ str "**\n\n" ++
  a.content.take 150 ++ str "...\n\n" ++
  str "---\n\n"

/-- One entry of the comprehensive tool's NewsAPI/tech/business blocks (the
three loops share this exact layout): bold numbered title, full description,
source name. -/
def renderCompArticle (i : Nat) (a : Article) : List Char :=
  str "**" ++ natChars i ++ str ". " ++ a.title ++ str "**\n\n" ++
  a.description ++ str "\n\n" ++
  str "**Source:** " ++ a.sourceName ++ str "\n\n" ++
  str "---\n\n"

/-- Rendered entries of the comprehensive tool's Tavily block:
`enumerate(tavily_news[:3], 1)`. -/
def compTavilyParts (arts : List Article) : List (List Char) :=
  (arts.take 3).enum.map fun p => renderCompTavily (p.1 + 1) p.2

/-- Rendered entries of the comprehensive tool's NewsAPI block:
`enumerate(newsapi_news[:3], 1)`. -/
def compNewsapiParts (arts : List Article) : List (List Char) :=
  (arts.take 3).enum.map fun p => renderCompArticle (p.1 + 1) p.2

/-- Rendered entries of the comprehensive tool's technology block:
`enumerate(tech_articles[:3], 1)`. -/
def compTechParts (arts : List Article) : List (List Char) :=
  (arts.take 3).enum.map fun p => renderCompArticle (p.1 + 1) p.2

/-- Rendered entries of the comprehensive tool's business block:
`enumerate(financial_articles[:3], 1)`. -/
def compBusinessParts (arts : List Article) : List (List Char) :=
  (arts.take 3).enum.map fun p => renderCompArticle (p.1 + 1) p.2

/-- The total-article count the comprehensive tool reports
("**Total Articles Found:** ..."), read off the aggregate it builds over
all three categories. -/
def comprehensive_total (env : SearchEnv) (query : List Char) : Nat :=
  (NewsAggregator.aggregate_news env query ["general", "tech", "business"]).total_articles

/-- The `search_comprehensive_news` tool: aggregates all three categories
and renders every block.  Note the category headers are emitted whenever the
category key is present (the sub-dict is truthy even with empty lists). -/
def search_comprehensive_news (env : SearchEnv) (query : List Char) : List Char :=
  let results := NewsAggregator.aggregate_news env query ["general", "tech", "business"]
  str "# 📰 Comprehensive News Coverage: \x27" ++ query ++ str "\x27\n\n" ++
  str "**Total Articles Found:** " ++ natChars results.total_articles ++ str "\n" ++
  str "**Search Time:** " ++ results.timestamp ++ str "\n\n" ++
  (match results.general with
   | none => []
   | some g =>
       str "## 🌐 General News\n\n" ++
       (if g.tavily.isEmpty then []
        else str "### 🔍 Web Search Results\n\n" ++ (compTavilyParts g.tavily).flatten) ++
       (if g.newsapi.isEmpty then []
        else str "### 📰 News API Results\n\n" ++ (compNewsapiParts g.newsapi).flatten)) ++
  (match results.technology with
   | none => []
   | some t =>
       str "## 💻 Technology News\n\n" ++
       (if t.tech_sources.isEmpty then []
        else (compTechParts t.tech_sources).flatten)) ++
  (match results.business with
   | none => []
   | some b =>
       str "## 💼 Business News\n\n" ++
       (if b.financial_sources.isEmpty then []
        else (compBusinessParts b.financial_sources).flatten))

/- ## src/tools/speech_tools.py -/

/-- Outcome of one external recognizer call (`recognize_google` /
`recognize_sphinx`): a recognized text, an `UnknownValueError`, or any other
exception (carrying `str(e)`). -/
inductive EngineOutcome where
  | recognized (text : List Char)
  | unknownValue
  | raised (msg : List Char)
deriving DecidableEq, Repr

/-- The dict a `SpeechToTextProcessor` transcription method returns: the
success shape carries text/confidence/engine/language, the failure shape
carries the error string (with `success: False`, empty text, low
confidence, engine "none"). -/
inductive TResult where
  | ok (text confidence engine language : List Char)
  | fail (error : List Char)
deriving DecidableEq, Repr

/-- A transcription run together with which recognizers were actually
invoked. -/
structure RecogRun where
  result : TResult
  googleInvoked : Bool
  sphinxInvoked : Bool
deriving DecidableEq, Repr

/-- The shared recognizer cascade of the three transcription methods: try
Google; on `UnknownValueError` (and only then) try Sphinx; a Sphinx
`UnknownValueError` yields "Could not understand audio"; any other
exception propagates to the method's outer `except` which returns it as the
error string. -/
def recognizeFallback (google sphinx : EngineOutcome) (language : List Char) :
    RecogRun :=
  match google with
  | .recognized text =>
      ⟨.ok text (str "high") (str "google") language, true, false⟩
  | .unknownValue =>
      match sphinx with
      | .recognized text =>
          ⟨.ok text (str "medium") (str "sphinx") language, true, true⟩
      | .unknownValue =>
          ⟨.fail (str "Could not understand audio"), true, true⟩
      | .raised msg => ⟨.fail msg, true, true⟩
  | .raised msg => ⟨.fail msg, true, false⟩

/-- Outcome of acquiring audio from a file (`sr.AudioFile` +
`record`): success or an exception. -/
inductive AudioLoad where
  | ok
  | raised (msg : List Char)
deriving DecidableEq, Repr

/-- Oracle for one file-transcription call: how audio loading and the two
recognizers behave on that file's audio. -/
structure FileSpeechEnv where
  load : AudioLoad
  google : EngineOutcome
  sphinx : EngineOutcome
deriving Repr

namespace SpeechToTextProcessor

/-- `SpeechToTextProcessor.transcribe_audio_file`: acquire the audio (a
loading exception is caught by the outer `except` and returned as the error
dict), then run the Google→Sphinx cascade. -/
def transcribe_audio_file (env : FileSpeechEnv) (language : List Char) : RecogRun :=
  match env.load with
  | .raised msg => ⟨.fail msg, false, false⟩
  | .ok => recognizeFallback env.google env.sphinx language

/-- Outcome of `recognizer.listen` on the microphone: audio captured, a
`WaitTimeoutError`, or another exception. -/
inductive ListenOutcome where
  | ok
  | timeout
  | raised (msg : List Char)
deriving DecidableEq, Repr

/-- Oracle for one microphone-transcription call. -/
structure MicSpeechEnv where
  listen : ListenOutcome
  google : EngineOutcome
  sphinx : EngineOutcome
deriving Repr

/-- `SpeechToTextProcessor.transcribe_microphone`: calibration and `listen`
happen first; a `WaitTimeoutError` from `listen` reaches the outer `except`
as the library's message "listening timed out while waiting for phrase to
start"; captured audio goes through the Google→Sphinx cascade.  (The
source's dead `except sr.WaitTimeoutError` arm around `recognize_google`
is unreachable: `listen` is outside that `try`.) -/
def transcribe_microphone (env : MicSpeechEnv) (language : List Char) : RecogRun :=
  match env.listen with
  | .timeout =>
      ⟨.fail (str "listening timed out while waiting for phrase to start"),
       false, false⟩
  | .raised msg => ⟨.fail msg, false, false⟩
  | .ok => recognizeFallback env.google env.sphinx language

/-- Oracle for one bytes-transcription call (`transcribe_audio_bytes`):
format conversion and `AudioData` construction abstracted into `load`. -/
structure BytesSpeechEnv where
  load : AudioLoad
  google : EngineOutcome
  sphinx : EngineOutcome
deriving Repr

/-- `SpeechToTextProcessor.transcribe_audio_bytes`: convert/construct the
audio (exceptions → outer `except` → error dict), then the cascade. -/
def transcribe_audio_bytes (env : BytesSpeechEnv) (language : List Char) : RecogRun :=
  match env.load with
  | .raised msg => ⟨.fail msg, false, false⟩
  | .ok => recognizeFallback env.google env.sphinx language

end SpeechToTextProcessor

/-- The speech-recognition configuration the processor reads from
`config['speech_recognition']` (with code defaults `'en-US'` /
`['en-US']` when the keys are missing). -/
structure SpeechCfg where
  default_language : List Char
  supported_languages : List (List Char)
deriving Repr

/-- `if not language: language = speech_processor.default_language` — Python
falsiness covers both `None` and the empty string. -/
def effectiveLanguage (cfg : SpeechCfg) (language : Option (List Char)) : List Char :=
  match language with
  | none => cfg.default_language
  | some l => if l.isEmpty then cfg.default_language else l

/-- Python's `repr` of the supported-languages list of strings, as the
f-string `{speech_processor.supported_languages}` renders it. -/
def renderLangList (ls : List (List Char)) : List Char :=
  str "[" ++
  (List.intersperse (str ", ") (ls.map fun s => str "\x27" ++ s ++ str "\x27")).flatten ++
  str "]"

/-- The unsupported-language error message shared by the three transcription
tools. -/
def unsupportedMsg (cfg : SpeechCfg) (language : List Char) : List Char :=
  str "Error: Unsupported language \x27" ++ language ++
  str "\x27. Supported languages: " ++ renderLangList cfg.supported_languages

/-- A tool call's result string together with whether any speech recognizer
was invoked during the call. -/
structure ToolRun where
  output : List Char
  recognizerInvoked : Bool
deriving Repr

/-- The success/failure message rendering shared by the three transcription
tools. -/
def renderTranscription (r : TResult) : List Char :=
  match r with
  | .ok text _ engine _ =>
      str "Transcription successful using " ++ engine ++ str " engine:\n\n" ++ text
  | .fail error => str "Transcription failed: " ++ error

/-- The module-level `transcribe_audio_file` tool: file-existence check
first, then language defaulting and validation, then the processor call. -/
def transcribe_audio_file_tool (cfg : SpeechCfg) (fileExists : Bool)
    (env : FileSpeechEnv) (audio_file_path : List Char)
    (language : Option (List Char)) : ToolRun :=
  if fileExists = false then
    ⟨str "Error: Audio file not found at " ++ audio_file_path, false⟩
  else
    let lang := effectiveLanguage cfg language
    if cfg.supported_languages.contains lang = false then
      ⟨unsupportedMsg cfg lang, false⟩
    else
      let run := SpeechToTextProcessor.transcribe_audio_file env lang
      ⟨renderTranscription run.result, run.googleInvoked || run.sphinxInvoked⟩

/-- `str.lower()` over code points. -/
def pyLower (s : List Char) : List Char := s.map Char.toLower

/-- The `transcribe_audio_from_microphone` tool: language defaulting and
validation, the processor call, and on failure a hint appended whenever the
error mentions a timeout ("timed out" in the lowercased error).  The
`duration`/`device_index`/`start_timeout` arguments only parameterize the
external `listen` call and are absorbed into `env.listen`. -/
def transcribe_audio_from_microphone (cfg : SpeechCfg)
    (env : SpeechToTextProcessor.MicSpeechEnv)
    (language : Option (List Char)) : ToolRun :=
  let lang := effectiveLanguage cfg language
  if cfg.supported_languages.contains lang = false then
    ⟨unsupportedMsg cfg lang, false⟩
  else
    let run := SpeechToTextProcessor.transcribe_microphone env lang
    match run.result with
    | .ok text _ engine _ =>
        ⟨str "Transcription successful using " ++ engine ++ str " engine:\n\n" ++ text,
         run.googleInvoked || run.sphinxInvoked⟩
    | .fail error =>
        let guidance :=
          if pyContains (str "timed out") (pyLower error) then
            str "\nHint: try \x27mics\x27 to choose the correct device, or increase start_timeout (e.g., \x27listen 8 en-US 0 15\x27 or use 0 to wait indefinitely)."
          else []
        ⟨str "Transcription failed: " ++ error ++ guidance,
         run.googleInvoked || run.sphinxInvoked⟩

/-- The `transcribe_base64_audio` tool: language defaulting and validation
happen before the base64 decode; a decode exception reaches the tool's
outer `except` ("Error processing base64 audio: ...").  `decode` models
`base64.b64decode`. -/
def transcribe_base64_audio (cfg : SpeechCfg) (decode : AudioLoad)
    (env : SpeechToTextProcessor.BytesSpeechEnv)
    (language : Option (List Char)) : ToolRun :=
  let lang := effectiveLanguage cfg language
  if cfg.supported_languages.contains lang = false then
    ⟨unsupportedMsg cfg lang, false⟩
  else
    match decode with
    | .raised msg => ⟨str "Error processing base64 audio: " ++ msg, false⟩
    | .ok =>
        let run := SpeechToTextProcessor.transcribe_audio_bytes env lang
        ⟨renderTranscription run.result, run.googleInvoked || run.sphinxInvoked⟩

/- ## src/main.py -/

/-- A JSON value occurring in the endpoints' response bodies. -/
inductive JVal where
  | s (v : List Char)
  | b (v : Bool)
  | null
deriving DecidableEq, Repr

/-- An HTTP response: status code and the JSON object body as a key-value
list (plain dict returns carry FastAPI's default status 200). -/
structure Response where
  status : Nat
  fields : List (String × JVal)
deriving DecidableEq, Repr

/-- The API-level configuration `main.py` reads from `config` (with its own
code defaults `'groq'` / `'en-US'`). -/
structure ApiCfg where
  default_model_provider : List Char
  default_language : List Char
deriving Repr

/-- The `QueryRequest` pydantic model. -/
structure QueryRequest where
  question : List Char
  model_provider : List Char
  thread_id : Option (List Char)
  audio_file_path : Option (List Char)
  language : List Char
deriving Repr

/-- What `graph.run_with_memory` returns: a dict with an "error" key, or a
result dict (its `.get` defaults for response/timestamp/memory_enabled are
absorbed into the carried values). -/
inductive RunOutcome where
  | err (msg : List Char)
  | ok (response timestamp : List Char) (memory_enabled : Bool)
deriving DecidableEq, Repr

/-- `query.thread_id or "api_default"` — Python `or` falls through to the
default for `None` and for the empty string. -/
def pyThreadId (threadId : Option (List Char)) : List Char :=
  match threadId with
  | none => str "api_default"
  | some t => if t.isEmpty then str "api_default" else t

/-- `result.split("\n\n")[-1]` — the transcribed text extracted from a
successful tool message (Python `str.split` with a non-empty separator,
last segment). -/
def lastSplitSegment (l : List Char) : List Char :=
  (((String.mk l).splitOn "\n\n").map String.data).getLastD []

/-- Environment of one `POST /query` request: whether the audio file exists,
the speech oracle for it, the agent graph (`run_with_memory`) and the
clock. -/
structure QueryEnv where
  fileExists : Bool
  speech : FileSpeechEnv
  run : List Char → List Char → RunOutcome
  now : List Char

/-- The `POST /query` handler `query_news_agent`: optional speech-to-text
(a result without "Transcription successful" short-circuits to a 400 error
before the graph is built), then the graph run, then the success dict or a
500 error.  The second component records whether the agent graph was
invoked.  The graph-visualization block only writes a PNG inside its own
`try` and is omitted. -/
def query_news_agent (scfg : SpeechCfg) (env : QueryEnv) (q : QueryRequest) :
    Response × Bool :=
  let step : Sum (List Char) Response :=
    match q.audio_file_path with
    | none => .inl q.question
    | some p =>
        let tr := transcribe_audio_file_tool scfg env.fileExists env.speech p
          (some q.language)
        if pyContains (str "Transcription successful") tr.output then
          .inl (str "Based on this transcribed audio: \x27" ++
                lastSplitSegment tr.output ++
                str "\x27, please provide relevant news information.")
        else
          .inr ⟨400, [("error", .s (str "Speech-to-text failed: " ++ tr.output)),
                      ("timestamp", .s env.now)]⟩
  match step with
  | .inr r => (r, false)
  | .inl question =>
      let thread_id := pyThreadId q.thread_id
      match env.run question thread_id with
      | .err msg =>
          (⟨500, [("error", .s msg), ("timestamp", .s env.now)]⟩, true)
      | .ok response timestamp memory_enabled =>
          (⟨200, [("answer", .s response),
                  ("timestamp", .s timestamp),
                  ("model_provider", .s q.model_provider),
                  ("thread_id", .s thread_id),
                  ("memory_enabled", .b memory_enabled),
                  ("audio_processed", .b q.audio_file_path.isSome),
                  ("language", if q.audio_file_path.isSome then .s q.language
                               else .null)]⟩, true)

/-- The `POST /transcribe` handler `transcribe_audio`: default the language
from the API config, 404 when the file does not exist, otherwise run the
transcription tool and map its message to a success dict or a 400 error. -/
def transcribe_audio_endpoint (acfg : ApiCfg) (scfg : SpeechCfg)
    (fileExists : Bool) (speech : FileSpeechEnv) (now : List Char)
    (audio_file_path : List Char) (language : Option (List Char)) : Response :=
  let lang :=
    match language with
    | none => acfg.default_language
    | some l => if l.isEmpty then acfg.default_language else l
  if fileExists = false then
    ⟨404, [("error", .s (str "Audio file not found: " ++ audio_file_path)),
           ("timestamp", .s now)]⟩
  else
    let tr := transcribe_audio_file_tool scfg fileExists speech audio_file_path
      (some lang)
    if pyContains (str "Transcription successful") tr.output then
      ⟨200, [("transcription", .s (lastSplitSegment tr.output)),
             ("success", .b true),
             ("language", .s lang),
             ("timestamp", .s now)]⟩
    else
      ⟨400, [("error", .s tr.output),
             ("success", .b false),
             ("timestamp", .s now)]⟩

/- ## Claims -/

/-- C1: for every environment and query, the total article count reported by
the comprehensive-search tool ("Total Articles Found") equals the sum of the
six per-category list lengths aggregated by `aggregate_news` (general
NewsAPI + general Tavily + tech + LinkedIn + Medium + business). -/
theorem C1_comprehensive_total_is_sum (env : SearchEnv) (query : List Char) :
    comprehensive_total env query =
      (genNewsapi (NewsAggregator.aggregate_news env query
          ["general", "tech", "business"])).length +
      (genTavily (NewsAggregator.aggregate_news env query
          ["general", "tech", "business"])).length +
      (techList (NewsAggregator.aggregate_news env query
          ["general", "tech", "business"])).length +
      (linkedinList (NewsAggregator.aggregate_news env query
          ["general", "tech", "business"])).length +
      (mediumList (NewsAggregator.aggregate_news env query
          ["general", "tech", "business"])).length +
      (finList (NewsAggregator.aggregate_news env query
          ["general", "tech", "business"])).length := by
  simp only [comprehensive_total, NewsAggregator.aggregate_news,
    genNewsapi, genTavily, techList, linkedinList, mediumList, finList]
  norm_num [List.contains_cons]
  omega
/-- C6: with all categories enabled, the backend-invocation trace of
`aggregate_news` is a sublist (hence at most six calls, in source order) of
the six backends NewsAPI-general, Tavily-general, NewsAPI-tech,
Tavily-LinkedIn, Tavily-Medium, NewsAPI-business, and the comprehensive
tool renders the merged aggregate as Markdown starting with its header. -/
theorem C6_fanout_at_most_six (env : SearchEnv) (query : List Char) :
    List.Sublist (aggregate_calls env query ["general", "tech", "business"])
      [Backend.newsapiGeneral, Backend.tavilyGeneral, Backend.newsapiTech,
       Backend.tavilyLinkedin, Backend.tavilyMedium, Backend.newsapiBusiness] ∧
    (aggregate_calls env query ["general", "tech", "business"]).length ≤ 6 ∧
    (∃ rest, search_comprehensive_news env query =
      str "# 📰 Comprehensive News Coverage: \x27" ++ rest) := by
  refine ⟨?_, ?_, ⟨_, rfl⟩⟩ <;>
  (by_cases h1 : (NewsAggregator.search_news_api env query 10).isEmpty <;>
   by_cases h2 : (NewsAggregator.search_tech_news env query).length < 5 <;>
   simp [aggregate_calls, h1, h2])

/-- C8: fallback sources are queried only on insufficient primary results:
the Tavily general backend is invoked exactly when the category was
requested and NewsAPI general returned no articles (hence at most one of
the two stored general lists is non-empty), and the LinkedIn/Medium
backends are invoked exactly when tech was requested and the NewsAPI
tech-domain search returned fewer than 5 articles. -/
theorem C8_fallback_only_when_insufficient (env : SearchEnv) (query : List Char)
    (categories : List String) :
    (Backend.tavilyGeneral ∈ aggregate_calls env query categories ↔
      ("general" ∈ categories ∧ NewsAggregator.search_news_api env query 10 = [])) ∧
    (genNewsapi (NewsAggregator.aggregate_news env query categories) = [] ∨
     genTavily (NewsAggregator.aggregate_news env query categories) = []) ∧
    (Backend.tavilyLinkedin ∈ aggregate_calls env query categories ↔
      ("tech" ∈ categories ∧
       (NewsAggregator.search_tech_news env query).length < 5)) ∧
    (Backend.tavilyMedium ∈ aggregate_calls env query categories ↔
      ("tech" ∈ categories ∧
       (NewsAggregator.search_tech_news env query).length < 5)) := by
  by_cases hg : "general" ∈ categories <;>
  by_cases ht : "tech" ∈ categories <;>
  by_cases h1 : NewsAggregator.search_news_api env query 10 = [] <;>
  by_cases h2 : (NewsAggregator.search_tech_news env query).length < 5 <;>
  simp [aggregate_calls, NewsAggregator.aggregate_news, genNewsapi, genTavily,
    hg, ht, h1, h2]
/-- C9: each primary rendered block (web search, NewsAPI, tech sources,
financial sources) holds at most 5 articles, each LinkedIn, Medium and
comprehensive-coverage block at most 3, and every truncated article body
embedded in a rendered entry is the content cut to 200 characters (150 in
the comprehensive web block), hence of length at most that limit. -/
theorem C9_section_limits (env : SearchEnv) (arts : List Article)
    (i : Nat) (a : Article) :
    (tavilyWebParts arts).length ≤ 5 ∧
    (newsapiGeneralParts env arts).length ≤ 5 ∧
    (techSourcesParts env arts).length ≤ 5 ∧
    (financialParts env arts).length ≤ 5 ∧
    (linkedinParts arts).length ≤ 3 ∧
    (mediumParts arts).length ≤ 3 ∧
    (compTavilyParts arts).length ≤ 3 ∧
    (compNewsapiParts arts).length ≤ 3 ∧
    (compTechParts arts).length ≤ 3 ∧
    (compBusinessParts arts).length ≤ 3 ∧
    (∃ pre suf, renderTavilyGeneral i a = pre ++ a.content.take 200 ++ suf) ∧
    (∃ pre suf, renderContentLink i a = pre ++ a.content.take 200 ++ suf) ∧
    (∃ pre suf, renderCompTavily i a = pre ++ a.content.take 150 ++ suf) ∧
    (a.content.take 200).length ≤ 200 ∧
    (a.content.take 150).length ≤ 150 := by
  refine ⟨?_, ?_, ?_, ?_, ?_, ?_, ?_, ?_, ?_, ?_,
    ⟨str "### " ++ natChars i ++ str ". " ++ a.title ++ str "\n\n",
     str "...\n\n" ++
       (if a.url.isEmpty then []
        else str "**Source:** [" ++ a.url ++ str "](" ++ a.url ++ str ")\n\n") ++
       str "---\n\n", ?_⟩,
    ⟨str "### " ++ natChars i ++ str ". " ++ a.title ++ str "\n\n",
     str "...\n\n" ++
       (if a.url.isEmpty then []
        else str "**Link:** [" ++ a.url ++ str "](" ++ a.url ++ str ")\n\n") ++
       str "---\n\n", ?_⟩,
    ⟨str "**" ++ natChars i ++ str ". " ++ a.title ++ str "**\n\n",
     str "...\n\n" ++ str "---\n\n", ?_⟩, ?_, ?_⟩ <;>
  simp [tavilyWebParts, newsapiGeneralParts, techSourcesParts,
    financialParts, linkedinParts, mediumParts, compTavilyParts,
    compNewsapiParts, compTechParts, compBusinessParts,
    renderTavilyGeneral, renderContentLink, renderCompTavily,
    List.length_take, List.append_assoc]
/-- C2: with neither TAVILY_API_KEY nor NEWS_API_KEY configured, every
backend search function returns the empty list, and each news-search tool
returns its plain Markdown header — a message that is not an error string
(error strings in the tools start with "Error") — rather than raising. -/
theorem C2_no_keys_empty_and_no_error (env : SearchEnv) (query : List Char)
    (n : Nat) (ht : env.tavilyKey = false) (hn : env.newsKey = false) :
    NewsAggregator.search_news_tavily env query n = [] ∧
    NewsAggregator.search_news_api env query n = [] ∧
    NewsAggregator.search_tech_news env query = [] ∧
    NewsAggregator.search_business_news env query = [] ∧
    NewsAggregator.search_linkedin_news env query = [] ∧
    NewsAggregator.search_medium_articles env query = [] ∧
    search_general_news env query =
      str "# 📰 General News about \x27" ++ query ++ str "\x27\n\n" ∧
    search_technology_news env query =
      str "# 💻 Technology News about \x27" ++ query ++ str "\x27\n\n" ∧
    search_business_news_tool env query =
      str "# 💼 Business News about \x27" ++ query ++ str "\x27\n\n" ∧
    comprehensive_total env query = 0 ∧
    isErrorString (search_general_news env query) = false ∧
    isErrorString (search_technology_news env query) = false ∧
    isErrorString (search_business_news_tool env query) = false ∧
    isErrorString (search_comprehensive_news env query) = false := by
  refine ⟨?_, ?_, ?_, ?_, ?_, ?_, ?_, ?_, ?_, ?_, ?_, ?_, ?_, ?_⟩ <;>
  simp [NewsAggregator.search_news_tavily, NewsAggregator.search_news_api,
    NewsAggregator.search_tech_news, NewsAggregator.search_business_news,
    NewsAggregator.search_linkedin_news, NewsAggregator.search_medium_articles,
    search_general_news, search_technology_news, search_business_news_tool,
    search_comprehensive_news, comprehensive_total,
    NewsAggregator.aggregate_news, tavilyWebSection, newsapiGeneralSection,
    techSourcesSection, linkedinSection, mediumSection, financialSection,
    isErrorString, str, List.isPrefixOf, ht, hn]

/-- A concrete key-less environment used to instantiate C2. -/
def envNoKeys : SearchEnv :=
  { tavilyKey := false, newsKey := false,
    tavilyResults := fun _ _ => [], newsApiResults := fun _ _ => [],
    techResults := fun _ => [], businessResults := fun _ => [],
    linkedinResults := fun _ => [], mediumResults := fun _ => [],
    formatDate := fun d => d, now := str "2026-01-01T00:00:00" }

/-- C2 witness: the theorem applied to the concrete key-less environment and
the query "ai". -/
theorem C2_no_keys_empty_and_no_error_witness :
    envNoKeys.tavilyKey = false ∧ envNoKeys.newsKey = false ∧
    (NewsAggregator.search_news_tavily envNoKeys (str "ai") 5 = [] ∧
     search_general_news envNoKeys (str "ai") =
       str "# 📰 General News about \x27" ++ str "ai" ++ str "\x27\n\n" ∧
     isErrorString (search_general_news envNoKeys (str "ai")) = false) := by
  have h := C2_no_keys_empty_and_no_error envNoKeys (str "ai") 5 rfl rfl
  exact ⟨rfl, rfl, h.1, h.2.2.2.2.2.2.1, h.2.2.2.2.2.2.2.2.2.2.1⟩
/-- C3: transcription invokes Google exactly when audio was acquired, and
invokes Sphinx exactly when Google was invoked and raised
`UnknownValueError` (both for the file method on any audio outcome and for
the microphone method); and when `listen` times out, the
microphone-transcription tool's result string contains the templated hint
for the user (given a supported language, so the recognition path is
reached). -/
theorem C3_recognizer_fallback_and_timeout_hint (fenv : FileSpeechEnv)
    (menv menvT : SpeechToTextProcessor.MicSpeechEnv) (flang : List Char)
    (cfg : SpeechCfg) (language : Option (List Char))
    (hsup : cfg.supported_languages.contains (effectiveLanguage cfg language) = true)
    (hto : menvT.listen = SpeechToTextProcessor.ListenOutcome.timeout) :
    ((SpeechToTextProcessor.transcribe_audio_file fenv flang).googleInvoked
      = (fenv.load == AudioLoad.ok)) ∧
    ((SpeechToTextProcessor.transcribe_audio_file fenv flang).sphinxInvoked
      = ((fenv.load == AudioLoad.ok) &&
         (fenv.google == EngineOutcome.unknownValue))) ∧
    ((SpeechToTextProcessor.transcribe_microphone menv flang).googleInvoked
      = (menv.listen == SpeechToTextProcessor.ListenOutcome.ok)) ∧
    ((SpeechToTextProcessor.transcribe_microphone menv flang).sphinxInvoked
      = ((menv.listen == SpeechToTextProcessor.ListenOutcome.ok) &&
         (menv.google == EngineOutcome.unknownValue))) ∧
    pyContains (str "Hint: try \x27mics\x27")
      (transcribe_audio_from_microphone cfg menvT language).output = true := by
  refine ⟨?_, ?_, ?_, ?_, ?_⟩
  · cases h : fenv.load <;>
      simp [SpeechToTextProcessor.transcribe_audio_file, recognizeFallback, h] <;>
      cases hg : fenv.google <;> simp [recognizeFallback, hg] <;>
      cases hs : fenv.sphinx <;> simp
  · cases h : fenv.load <;>
      simp [SpeechToTextProcessor.transcribe_audio_file, recognizeFallback, h] <;>
      cases hg : fenv.google <;> simp [recognizeFallback, hg] <;>
      cases hs : fenv.sphinx <;> simp
  · cases h : menv.listen <;>
      simp [SpeechToTextProcessor.transcribe_microphone, recognizeFallback, h] <;>
      cases hg : menv.google <;> simp [recognizeFallback, hg] <;>
      cases hs : menv.sphinx <;> simp
  · cases h : menv.listen <;>
      simp [SpeechToTextProcessor.transcribe_microphone, recognizeFallback, h] <;>
      cases hg : menv.google <;> simp [recognizeFallback, hg] <;>
      cases hs : menv.sphinx <;> simp
  · simp only [transcribe_audio_from_microphone,
      SpeechToTextProcessor.transcribe_microphone, hto, hsup,
      Bool.true_eq_false, if_false]
    decide

/-- The speech configuration matching the code defaults (`'en-US'` /
`['en-US']`). -/
def cfgDefault : SpeechCfg :=
  { default_language := str "en-US", supported_languages := [str "en-US"] }

/-- A concrete file-speech oracle: audio loads, Google recognizes. -/
def fenvGoogleOk : FileSpeechEnv :=
  { load := AudioLoad.ok, google := EngineOutcome.recognized (str "hello"),
    sphinx := EngineOutcome.unknownValue }

/-- A concrete microphone oracle whose Google step fails with
`UnknownValueError` (so Sphinx is tried). -/
def menvUnknown : SpeechToTextProcessor.MicSpeechEnv :=
  { listen := SpeechToTextProcessor.ListenOutcome.ok,
    google := EngineOutcome.unknownValue,
    sphinx := EngineOutcome.recognized (str "hello") }

/-- A concrete microphone oracle whose `listen` times out. -/
def menvTimeout : SpeechToTextProcessor.MicSpeechEnv :=
  { listen := SpeechToTextProcessor.ListenOutcome.timeout,
    google := EngineOutcome.unknownValue,
    sphinx := EngineOutcome.unknownValue }

/-- C3 witness: the theorem applied to concrete oracles — Google succeeds
without Sphinx on the file path, Sphinx is tried after an unknown-value
failure on the microphone path, and the timed-out microphone call's message
carries the hint. -/
theorem C3_recognizer_fallback_and_timeout_hint_witness :
    cfgDefault.supported_languages.contains
      (effectiveLanguage cfgDefault (some (str "en-US"))) = true ∧
    menvTimeout.listen = SpeechToTextProcessor.ListenOutcome.timeout ∧
    ((SpeechToTextProcessor.transcribe_audio_file fenvGoogleOk (str "en-US")).sphinxInvoked
       = false ∧
     (SpeechToTextProcessor.transcribe_microphone menvUnknown (str "en-US")).sphinxInvoked
       = true ∧
     pyContains (str "Hint: try \x27mics\x27")
       (transcribe_audio_from_microphone cfgDefault menvTimeout
         (some (str "en-US"))).output = true) := by
  have h := C3_recognizer_fallback_and_timeout_hint fenvGoogleOk menvUnknown
    menvTimeout (str "en-US") cfgDefault (some (str "en-US")) (by decide) rfl
  exact ⟨by decide, rfl, by simpa using h.2.1, by simpa using h.2.2.2.1, h.2.2.2.2⟩
/-- C4 counterexample: with the code-default configuration (supported
languages `['en-US']`), calling the file-transcription tool with the
unsupported language "zz-ZZ" and a non-existent audio path returns the
file-not-found error — a string that does not name the unsupported
language — refuting the claim that every transcription tool returns an
error naming the language for every unsupported code. -/
theorem C4_counterexample :
    (str "zz-ZZ").isEmpty = false ∧
    cfgDefault.supported_languages.contains (str "zz-ZZ") = false ∧
    (transcribe_audio_file_tool cfgDefault false fenvGoogleOk (str "audio.wav")
      (some (str "zz-ZZ"))).output = str "Error: Audio file not found at audio.wav" ∧
    pyContains (str "zz-ZZ")
      (transcribe_audio_file_tool cfgDefault false fenvGoogleOk (str "audio.wav")
        (some (str "zz-ZZ"))).output = false := by
  refine ⟨rfl, by decide, ?_, by decide⟩
  decide

/-- C4 (amended): for every non-empty language code outside the configured
supported list, the microphone and base64 tools return the descriptive
unsupported-language error, which names the code, and the file tool does so
whenever the audio file exists (a missing file yields a file-not-found
error instead); in all these cases no speech recognizer is invoked. -/
theorem C4_unsupported_language (cfg : SpeechCfg) (language : List Char)
    (h1 : language.isEmpty = false)
    (h2 : cfg.supported_languages.contains language = false)
    (fenv : FileSpeechEnv) (menv : SpeechToTextProcessor.MicSpeechEnv)
    (decode : AudioLoad) (benv : SpeechToTextProcessor.BytesSpeechEnv)
    (fileExists : Bool) (path : List Char) :
    (transcribe_audio_from_microphone cfg menv (some language)).output
      = unsupportedMsg cfg language ∧
    (transcribe_audio_from_microphone cfg menv (some language)).recognizerInvoked
      = false ∧
    (transcribe_base64_audio cfg decode benv (some language)).output
      = unsupportedMsg cfg language ∧
    (transcribe_base64_audio cfg decode benv (some language)).recognizerInvoked
      = false ∧
    (transcribe_audio_file_tool cfg fileExists fenv path (some language)).recognizerInvoked
      = false ∧
    (fileExists = true →
      (transcribe_audio_file_tool cfg fileExists fenv path (some language)).output
        = unsupportedMsg cfg language) ∧
    language <:+: unsupportedMsg cfg language := by
  have heff : effectiveLanguage cfg (some language) = language := by
    simp [effectiveLanguage, h1]
  have h2m : language ∉ cfg.supported_languages := by simpa using h2
  refine ⟨?_, ?_, ?_, ?_, ?_, ?_,
    ⟨str "Error: Unsupported language \x27",
     str "\x27. Supported languages: " ++ renderLangList cfg.supported_languages,
     by simp [unsupportedMsg, List.append_assoc]⟩⟩ <;>
  cases fileExists <;>
  simp [transcribe_audio_from_microphone, transcribe_base64_audio,
    transcribe_audio_file_tool, heff, h2m]

/-- C4 witness: the amended theorem applied to the default configuration,
the language "zz-ZZ", and an existing audio file. -/
theorem C4_unsupported_language_witness :
    (str "zz-ZZ").isEmpty = false ∧
    cfgDefault.supported_languages.contains (str "zz-ZZ") = false ∧
    ((transcribe_audio_from_microphone cfgDefault menvUnknown
        (some (str "zz-ZZ"))).output = unsupportedMsg cfgDefault (str "zz-ZZ") ∧
     (transcribe_audio_file_tool cfgDefault true fenvGoogleOk (str "audio.wav")
        (some (str "zz-ZZ"))).output = unsupportedMsg cfgDefault (str "zz-ZZ") ∧
     (transcribe_audio_file_tool cfgDefault true fenvGoogleOk (str "audio.wav")
        (some (str "zz-ZZ"))).recognizerInvoked = false) := by
  have h := C4_unsupported_language cfgDefault (str "zz-ZZ") rfl (by decide)
    fenvGoogleOk menvUnknown AudioLoad.ok
    { load := AudioLoad.ok, google := EngineOutcome.unknownValue,
      sphinx := EngineOutcome.unknownValue } true (str "audio.wav")
  exact ⟨rfl, by decide, h.1, h.2.2.2.2.2.1 rfl, h.2.2.2.2.1⟩
/-- If the pattern's first character does not occur in `a` and the pattern
does not occur in `p`, then the pattern does not occur in `a ++ p` (an
occurrence can neither start inside `a` nor lie inside `p`). -/
lemma pyContains_cons_append_eq_false {c : Char} {s a p : List Char}
    (hc : c ∉ a) (hp : pyContains (c :: s) p = false) :
    pyContains (c :: s) (a ++ p) = false := by
  induction a with
  | nil => simpa using hp
  | cons b a ih =>
      have hcb : (c == b) = false := by
        simp only [beq_eq_false_iff_ne, ne_eq]
        intro h
        exact hc (h ▸ List.mem_cons_self b a)
      have hca : c ∉ a := fun h => hc (List.mem_cons_of_mem _ h)
      simp [pyContains, List.isPrefixOf, hcb, ih hca]

/-- The LLM-graph oracle that always answers successfully. -/
def runOk : List Char → List Char → RunOutcome :=
  fun _ _ => RunOutcome.ok (str "answer") (str "2026-01-01T00:00:00") true

/-- A request environment whose audio file does not exist and whose graph
run succeeds. -/
def qenvMissing : QueryEnv :=
  { fileExists := false, speech := fenvGoogleOk, run := runOk,
    now := str "2026-01-01T00:00:00" }

/-- A `/query` request whose audio path is the pathological string
"Transcription successful". -/
def qPathological : QueryRequest :=
  { question := str "q", model_provider := str "groq", thread_id := none,
    audio_file_path := some (str "Transcription successful"),
    language := str "en-US" }

/-- C5 counterexample: a `/query` request whose audio file is missing but
whose path itself contains the substring "Transcription successful" is
misread as a successful transcription: the endpoint answers 200 with no
error field instead of an error response, refuting the claim for this
input. -/
theorem C5_counterexample :
    qenvMissing.fileExists = false ∧
    (query_news_agent cfgDefault qenvMissing qPathological).1.status = 200 ∧
    List.lookup "error"
      (query_news_agent cfgDefault qenvMissing qPathological).1.fields = none := by
  refine ⟨rfl, by decide, by decide⟩

/-- C5 (amended): `POST /transcribe` with a non-existent audio path returns
status 404 with an error field, and `POST /query` with a missing audio file
returns a 400 error response rather than raising — provided the path does
not itself contain the substring "Transcription successful" (which the
handler would misread as a successful transcription). -/
theorem C5_missing_file_error_responses (acfg : ApiCfg) (scfg : SpeechCfg)
    (speech : FileSpeechEnv) (now path : List Char)
    (language : Option (List Char)) (env : QueryEnv) (q : QueryRequest)
    (p : List Char) (h1 : q.audio_file_path = some p)
    (h2 : env.fileExists = false)
    (h3 : pyContains (str "Transcription successful") p = false) :
    (transcribe_audio_endpoint acfg scfg false speech now path language).status
      = 404 ∧
    (List.lookup "error"
      (transcribe_audio_endpoint acfg scfg false speech now path language).fields).isSome
      = true ∧
    (query_news_agent scfg env q).1.status = 400 ∧
    (List.lookup "error" (query_news_agent scfg env q).1.fields).isSome = true := by
  have hnotT : 'T' ∉ str "Error: Audio file not found at " := by decide
  have key : pyContains (str "Transcription successful")
      (str "Error: Audio file not found at " ++ p) = false := by
    have hT : str "Transcription successful"
        = 'T' :: str "ranscription successful" := rfl
    rw [hT] at h3 ⊢
    exact pyContains_cons_append_eq_false hnotT h3
  refine ⟨?_, ?_, ?_, ?_⟩
  · simp [transcribe_audio_endpoint]
  · simp [transcribe_audio_endpoint, List.lookup]
  · simp [query_news_agent, h1, h2, transcribe_audio_file_tool, key]
  · simp [query_news_agent, h1, h2, transcribe_audio_file_tool, key, List.lookup]

/-- A `/query` request with an ordinary missing audio path. -/
def qMissing : QueryRequest :=
  { question := str "q", model_provider := str "groq", thread_id := none,
    audio_file_path := some (str "missing.wav"), language := str "en-US" }

/-- C5 witness: the amended theorem applied to a concrete missing file
"missing.wav". -/
theorem C5_missing_file_error_responses_witness :
    qMissing.audio_file_path = some (str "missing.wav") ∧
    qenvMissing.fileExists = false ∧
    pyContains (str "Transcription successful") (str "missing.wav") = false ∧
    ((transcribe_audio_endpoint
        { default_model_provider := str "groq", default_language := str "en-US" }
        cfgDefault false fenvGoogleOk (str "2026-01-01T00:00:00")
        (str "missing.wav") none).status = 404 ∧
     (query_news_agent cfgDefault qenvMissing qMissing).1.status = 400) := by
  have h := C5_missing_file_error_responses
    { default_model_provider := str "groq", default_language := str "en-US" }
    cfgDefault fenvGoogleOk (str "2026-01-01T00:00:00") (str "missing.wav")
    none qenvMissing qMissing (str "missing.wav") rfl rfl (by decide)
  exact ⟨rfl, rfl, by decide, h.1, h.2.2.1⟩
/-- A `/query` request that supplies the empty string as thread id. -/
def qEmptyThread : QueryRequest :=
  { question := str "q", model_provider := str "groq", thread_id := some [],
    audio_file_path := none, language := str "en-US" }

/-- C7 counterexample: a successful `/query` request that supplies the empty
string as its thread id gets back thread_id "api_default", which differs
from the supplied thread id even though one was supplied — Python's
`query.thread_id or "api_default"` treats the empty string like `None`. -/
theorem C7_counterexample :
    qEmptyThread.thread_id = some [] ∧
    (query_news_agent cfgDefault qenvMissing qEmptyThread).1.status = 200 ∧
    List.lookup "thread_id"
      (query_news_agent cfgDefault qenvMissing qEmptyThread).1.fields
      = some (JVal.s (str "api_default")) ∧
    str "api_default" ≠ ([] : List Char) := by
  refine ⟨rfl, by decide, by decide, by decide⟩

/-- C7 (amended): every 200 response of `POST /query` carries the fields
answer, timestamp, model_provider, thread_id and memory_enabled, where
thread_id equals the request's thread_id when that is a non-empty string
and "api_default" when it is absent or empty (`pyThreadId`). -/
theorem C7_success_response_fields (scfg : SpeechCfg) (env : QueryEnv)
    (q : QueryRequest)
    (h : (query_news_agent scfg env q).1.status = 200) :
    (List.lookup "answer" (query_news_agent scfg env q).1.fields).isSome = true ∧
    (List.lookup "timestamp" (query_news_agent scfg env q).1.fields).isSome = true ∧
    List.lookup "model_provider" (query_news_agent scfg env q).1.fields
      = some (JVal.s q.model_provider) ∧
    List.lookup "thread_id" (query_news_agent scfg env q).1.fields
      = some (JVal.s (pyThreadId q.thread_id)) ∧
    (List.lookup "memory_enabled" (query_news_agent scfg env q).1.fields).isSome
      = true := by
  rcases hq : q.audio_file_path with _ | p
  · rcases hr : env.run q.question (pyThreadId q.thread_id) with msg | ⟨resp, ts, mem⟩
    · exfalso
      simp [query_news_agent, hq, hr] at h
    · simp [query_news_agent, hq, hr, List.lookup]
  · by_cases hc : pyContains (str "Transcription successful")
        (transcribe_audio_file_tool scfg env.fileExists env.speech p
          (some q.language)).output
    · rcases hr : env.run
          (str "Based on this transcribed audio: \x27" ++
            (lastSplitSegment
              (transcribe_audio_file_tool scfg env.fileExists env.speech p
                (some q.language)).output ++
             str "\x27, please provide relevant news information."))
          (pyThreadId q.thread_id) with msg | ⟨resp, ts, mem⟩
      · exfalso
        simp [query_news_agent, hq, hc, hr] at h
      · simp [query_news_agent, hq, hc, hr, List.lookup]
    · exfalso
      simp [query_news_agent, hq, hc] at h

/-- C7 witness: the amended theorem applied to a concrete successful
request (the one with the empty thread id). -/
theorem C7_success_response_fields_witness :
    (query_news_agent cfgDefault qenvMissing qEmptyThread).1.status = 200 ∧
    ((List.lookup "answer"
        (query_news_agent cfgDefault qenvMissing qEmptyThread).1.fields).isSome
       = true ∧
     List.lookup "thread_id"
        (query_news_agent cfgDefault qenvMissing qEmptyThread).1.fields
       = some (JVal.s (pyThreadId qEmptyThread.thread_id))) := by
  have h := C7_success_response_fields cfgDefault qenvMissing qEmptyThread
    (by decide)
  exact ⟨by decide, h.1, h.2.2.2.1⟩

/-- C10: when a `/query` request carries an audio path whose transcription
result does not contain "Transcription successful", the endpoint answers
400 with an error field and the agent graph is never invoked (so no answer
is generated and no conversation turn is added). -/
theorem C10_failed_transcription_skips_graph (scfg : SpeechCfg)
    (env : QueryEnv) (q : QueryRequest) (p : List Char)
    (h1 : q.audio_file_path = some p)
    (h2 : pyContains (str "Transcription successful")
      (transcribe_audio_file_tool scfg env.fileExists env.speech p
        (some q.language)).output = false) :
    (query_news_agent scfg env q).1.status = 400 ∧
    (List.lookup "error" (query_news_agent scfg env q).1.fields).isSome = true ∧
    (query_news_agent scfg env q).2 = false := by
  refine ⟨?_, ?_, ?_⟩ <;> simp [query_news_agent, h1, h2, List.lookup]

/-- C10 witness: the theorem applied to a concrete request whose audio file
is missing, so the tool reports a file-not-found error. -/
theorem C10_failed_transcription_skips_graph_witness :
    qMissing.audio_file_path = some (str "missing.wav") ∧
    pyContains (str "Transcription successful")
      (transcribe_audio_file_tool cfgDefault qenvMissing.fileExists
        qenvMissing.speech (str "missing.wav")
        (some qMissing.language)).output = false ∧
    ((query_news_agent cfgDefault qenvMissing qMissing).1.status = 400 ∧
     (query_news_agent cfgDefault qenvMissing qMissing).2 = false) := by
  have h := C10_failed_transcription_skips_graph cfgDefault qenvMissing qMissing
    (str "missing.wav") rfl (by decide)
  exact ⟨rfl, by decide, h.1, h.2.2⟩
